import Mathlib

/-!
Shallow embedding of `remoteio_client.py` (classes `RemoteServer` and
`RemotePin`), together with proofs of the specified properties of the
command encoding and the connection lifecycle.

Modelling choices:
* A TCP socket is modelled as a `Socket`: a closed-flag plus the list of
  byte payloads successfully written to it.  The operating system's socket
  table is a `Store` (a list of sockets); Python object references to a
  socket (`self.client_socket` on both classes) are indices into that
  store, which captures the aliasing between a `RemoteServer` and the
  `RemotePin`s derived from it.
* `socket.sendall` either appends its payload to the socket's `sent` list
  or raises `OSError` (errno `EBADF`, bad file descriptor) when the socket
  has been closed.  `socket.connect` is driven by an oracle argument: the
  outcome of the TCP handshake (`none` for success, `some e` for the
  `OSError` the handshake raised).
* Python's `str.encode()` (UTF-8, the default) is modelled by `pyEncode`.
* Fallible methods return `Except OSErr`; Python `raise` is `.error`.
-/

namespace RemoteIO

/-- Values of `OSError` that the socket layer can raise: a failed TCP
handshake (e.g. `ConnectionRefusedError`) or a send on a closed socket
(errno `EBADF`). -/
inductive OSErr where
  | connectionRefused
  | badFileDescriptor
  deriving DecidableEq, Repr

/-- A TCP socket: whether it has been closed, and the byte payloads
written to it so far (each `sendall` call contributes one entry). -/
structure Socket where
  closed : Bool
  sent : List (List UInt8)
  deriving DecidableEq, Repr

/-- The operating system's socket table; object references to sockets are
indices into it. -/
abbrev Store := List Socket

/-- Dereference a socket: an index outside the table behaves like a closed
socket (any send on it fails, as with an invalid file descriptor). -/
def getSock (st : Store) (r : Nat) : Socket :=
  st.getD r { closed := true, sent := [] }

/-- UTF-8 encoding of one character, as Python's `str.encode()` performs it. -/
def pyEncodeChar (c : Char) : List UInt8 :=
  let v := c.toNat
  if v < 0x80 then
    [UInt8.ofNat v]
  else if v < 0x800 then
    [UInt8.ofNat (0xC0 ||| (v >>> 6)), UInt8.ofNat (0x80 ||| (v &&& 0x3F))]
  else if v < 0x10000 then
    [UInt8.ofNat (0xE0 ||| (v >>> 12)), UInt8.ofNat (0x80 ||| ((v >>> 6) &&& 0x3F)),
     UInt8.ofNat (0x80 ||| (v &&& 0x3F))]
  else
    [UInt8.ofNat (0xF0 ||| (v >>> 18)), UInt8.ofNat (0x80 ||| ((v >>> 12) &&& 0x3F)),
     UInt8.ofNat (0x80 ||| ((v >>> 6) &&& 0x3F)), UInt8.ofNat (0x80 ||| (v &&& 0x3F))]

/-- Python `s.encode()`: the UTF-8 bytes of `s`. -/
def pyEncode (s : String) : List UInt8 :=
  s.data.flatMap pyEncodeChar

/-- Model of `socket.sendall(data)`: raises `OSError` (`EBADF`) on a closed socket,
otherwise transmits the whole payload. -/
def Socket.sendall (sock : Socket) (data : List UInt8) : Except OSErr Socket :=
  if sock.closed then
    .error .badFileDescriptor
  else
    .ok { sock with sent := sock.sent ++ [data] }

/-- Model of `sendall` through a socket reference: dereference, send, write back. -/
def sendallRef (st : Store) (r : Nat) (data : List UInt8) : Except OSErr Store :=
  match (getSock st r).sendall data with
  | .error e => .error e
  | .ok sock => .ok (st.set r sock)

/-- Fields of `class RemoteServer` as assigned in `__init__`. -/
structure RemoteServer where
  server_ip : String
  server_port : Int
  client_socket : Nat
  deriving DecidableEq, Repr

/-- Model of `RemoteServer.__init__(server_ip, server_port)`: create a fresh socket
and synchronously `connect` it to the server.  `connectResult` is the
outcome of the TCP handshake (`none` = success, `some e` = the `OSError`
raised); on failure the constructor re-raises and no object is produced. -/
def RemoteServer.init (st : Store) (server_ip : String) (server_port : Int)
    (connectResult : Option OSErr) : Except OSErr (RemoteServer × Store) :=
  let r := st.length
  let st' := st ++ [{ closed := false, sent := [] }]
  match connectResult with
  | some e => .error e
  | none => .ok ({ server_ip := server_ip, server_port := server_port,
                   client_socket := r }, st')

/-- Fields of `class RemotePin` as assigned in `__init__`
(`client_socket` is the reference passed in by `RemoteServer.pin`;
`time_ms` is initialised to `0` and never read afterwards). -/
structure RemotePin where
  client_socket : Nat
  pin_number : Int
  numbering : String
  time_ms : Int
  deriving DecidableEq, Repr

/-- Model of `RemoteServer.pin(pin_number, numbering='b')`: pure construction of a
`RemotePin` sharing this server's socket reference. -/
def RemoteServer.pin (self : RemoteServer) (pin_number : Int)
    (numbering : String := "b") : RemotePin :=
  { client_socket := self.client_socket, pin_number := pin_number,
    numbering := numbering, time_ms := 0 }

/-- Model of `RemoteServer.close()`: `self.client_socket.close()`. -/
def RemoteServer.close (self : RemoteServer) (st : Store) : Store :=
  st.set self.client_socket { getSock st self.client_socket with closed := true }

/-- Model of `RemotePin.__create_command(command, time_ms=0)`:
`f"{command} {time_ms}"`. -/
def RemotePin.createCommand (_self : RemotePin) (command : String)
    (time_ms : Int := 0) : String :=
  command ++ " " ++ toString time_ms

/-- Model of `RemotePin.__send_command(command)`: prepend
`f"{self.numbering} {self.pin_number} "` and `sendall` the encoded bytes. -/
def RemotePin.sendCommand (self : RemotePin) (st : Store) (command : String) :
    Except OSErr Store :=
  let command := self.numbering ++ " " ++ toString self.pin_number ++ " " ++ command
  sendallRef st self.client_socket (pyEncode command)

/-- Model of `RemotePin.on(time_ms=0)`. -/
def RemotePin.on (self : RemotePin) (st : Store) (time_ms : Int := 0) :
    Except OSErr (RemotePin × Store) :=
  let cmd := self.createCommand "on" time_ms
  match self.sendCommand st cmd with
  | .error e => .error e
  | .ok st' => .ok (self, st')

/-- Model of `RemotePin.blink()`. -/
def RemotePin.blink (self : RemotePin) (st : Store) :
    Except OSErr (RemotePin × Store) :=
  let cmd := self.createCommand "blink"
  match self.sendCommand st cmd with
  | .error e => .error e
  | .ok st' => .ok (self, st')

/-- Model of `RemotePin.pulse()`. -/
def RemotePin.pulse (self : RemotePin) (st : Store) :
    Except OSErr (RemotePin × Store) :=
  let cmd := self.createCommand "pulse"
  match self.sendCommand st cmd with
  | .error e => .error e
  | .ok st' => .ok (self, st')

/-- Model of `RemotePin.off()`. -/
def RemotePin.off (self : RemotePin) (st : Store) :
    Except OSErr (RemotePin × Store) :=
  let cmd := self.createCommand "off"
  match self.sendCommand st cmd with
  | .error e => .error e
  | .ok st' => .ok (self, st')

/-- One action-method call on a pin handle, for reasoning about chains of
calls. -/
inductive Action where
  | on (time_ms : Int)
  | blink
  | pulse
  | off
  deriving DecidableEq, Repr

/-- Dispatch an `Action` to the corresponding `RemotePin` method. -/
def Action.run (a : Action) (p : RemotePin) (st : Store) :
    Except OSErr (RemotePin × Store) :=
  match a with
  | .on t => p.on st t
  | .blink => p.blink st
  | .pulse => p.pulse st
  | .off => p.off st

/-- A chained sequence of action calls: each call runs on the handle
returned by the previous one, as in `pin.on(5).blink().off()`. -/
def runAll (acts : List Action) (p : RemotePin) (st : Store) :
    Except OSErr (RemotePin × Store) :=
  match acts with
  | [] => .ok (p, st)
  | a :: rest =>
    match a.run p st with
    | .error e => .error e
    | .ok (p', st') => runAll rest p' st'

/-- A string is ASCII when every character's code point is below 128. -/
abbrev isAscii (s : String) : Prop := ∀ c ∈ s.data, c.toNat < 128

/-! Helper lemmas about decimal digits, `toString` on `Int`, and UTF-8. -/

theorem digitChar_ascii (n : Nat) : (Nat.digitChar n).toNat < 128 := by
  rcases lt_or_ge n 16 with h | h
  · interval_cases n <;> decide
  · have h' : ∀ k : Nat, k < 16 → ¬ (n = k) := by omega
    simp only [Nat.digitChar, h' 0 (by omega), h' 1 (by omega), h' 2 (by omega),
      h' 3 (by omega), h' 4 (by omega), h' 5 (by omega), h' 6 (by omega),
      h' 7 (by omega), h' 8 (by omega), h' 9 (by omega), h' 10 (by omega),
      h' 11 (by omega), h' 12 (by omega), h' 13 (by omega), h' 14 (by omega),
      h' 15 (by omega), if_false]
    decide

theorem toDigitsCore_ascii (fuel : Nat) : ∀ (n : Nat) (ds : List Char),
    (∀ c ∈ ds, c.toNat < 128) → ∀ c ∈ Nat.toDigitsCore 10 fuel n ds, c.toNat < 128 := by
  induction fuel with
  | zero => intro n ds h; simpa [Nat.toDigitsCore] using h
  | succ fuel ih =>
    intro n ds h
    simp only [Nat.toDigitsCore]
    split
    · intro c hc
      rcases List.mem_cons.mp hc with hc | hc
      · subst hc; exact digitChar_ascii _
      · exact h _ hc
    · refine ih _ _ ?_
      intro c hc
      rcases List.mem_cons.mp hc with hc | hc
      · subst hc; exact digitChar_ascii _
      · exact h _ hc

theorem natRepr_ascii (n : Nat) : ∀ c ∈ (Nat.repr n).data, c.toNat < 128 := by
  intro c hc
  have hd : (Nat.repr n).data = Nat.toDigits 10 n := by
    simp [Nat.repr, List.asString]
  rw [hd] at hc
  exact toDigitsCore_ascii _ _ _ (by simp) _ hc

theorem intToString_ascii (i : Int) : isAscii (toString i) := by
  cases i with
  | ofNat m => exact natRepr_ascii m
  | negSucc m =>
    intro c hc
    have hd : (toString (Int.negSucc m)).data = '-' :: (Nat.repr (m+1)).data := by
      show (("-" : String) ++ _).data = _
      simp [String.data_append]
      rfl
    rw [hd] at hc
    rcases List.mem_cons.mp hc with hc | hc
    · subst hc; decide
    · exact natRepr_ascii _ _ hc

theorem append_ascii (s t : String) (hs : isAscii s) (ht : isAscii t) :
    isAscii (s ++ t) := by
  intro c hc
  rw [String.data_append] at hc
  rcases List.mem_append.mp hc with hc | hc
  · exact hs _ hc
  · exact ht _ hc

theorem pyEncodeChar_of_ascii (c : Char) (h : c.toNat < 128) :
    pyEncodeChar c = [UInt8.ofNat c.toNat] := by
  simp [pyEncodeChar, h]

theorem flatMap_encode_of_ascii (l : List Char) (h : ∀ c ∈ l, c.toNat < 128) :
    l.flatMap pyEncodeChar = l.map (fun c => UInt8.ofNat c.toNat) := by
  induction l with
  | nil => rfl
  | cons c cs ih =>
    rw [List.flatMap_cons, List.map_cons,
      pyEncodeChar_of_ascii c (h c (by simp)),
      ih (fun d hd => h d (by simp [hd]))]
    rfl

theorem pyEncode_of_ascii (s : String) (h : isAscii s) :
    pyEncode s = s.data.map (fun c => UInt8.ofNat c.toNat) :=
  flatMap_encode_of_ascii s.data h

/-! Helper lemmas about the socket store. -/

theorem closed_false_lt (st : Store) (r : Nat)
    (h : (getSock st r).closed = false) : r < st.length := by
  by_contra h'
  have he : getSock st r = { closed := true, sent := [] } := by
    simp [getSock, List.getD, List.getElem?_eq_none (by omega : st.length ≤ r)]
  rw [he] at h
  simp at h

theorem getSock_set_self (st : Store) (r : Nat) (s : Socket)
    (h : r < st.length) : getSock (st.set r s) r = s := by
  simp [getSock, List.getD, List.getElem?_set_self h]

theorem getSock_set_ne (st : Store) (r r' : Nat) (s : Socket)
    (h : r ≠ r') : getSock (st.set r s) r' = getSock st r' := by
  simp [getSock, List.getD, List.getElem?_set_ne h]

theorem closed_pres_set (st : Store) (ref : Nat) (snt : List (List UInt8))
    (h : (getSock st ref).closed = false) :
    ∀ r, (getSock (st.set ref { closed := false, sent := snt }) r).closed
      = (getSock st r).closed := by
  intro r
  by_cases hr : ref = r
  · subst hr
    rw [getSock_set_self _ _ _ (closed_false_lt _ _ h), h]
  · rw [getSock_set_ne _ _ _ _ hr]

/-! Characterizations of `__send_command` and the four action methods. -/

theorem sendCommand_ok (p : RemotePin) (st : Store) (cmd : String)
    (h : (getSock st p.client_socket).closed = false) :
    p.sendCommand st cmd = .ok (st.set p.client_socket
      { closed := false,
        sent := (getSock st p.client_socket).sent
          ++ [pyEncode (p.numbering ++ " " ++ toString p.pin_number ++ " " ++ cmd)] }) := by
  unfold RemotePin.sendCommand sendallRef Socket.sendall
  simp [h]

theorem sendCommand_closed (p : RemotePin) (st : Store) (cmd : String)
    (h : (getSock st p.client_socket).closed = true) :
    p.sendCommand st cmd = .error .badFileDescriptor := by
  unfold RemotePin.sendCommand sendallRef Socket.sendall
  simp [h]

theorem sendCommand_ok_inv (p : RemotePin) (st : Store) (cmd : String) (st' : Store)
    (h : p.sendCommand st cmd = .ok st') :
    (getSock st p.client_socket).closed = false ∧
      st' = st.set p.client_socket
        { closed := false,
          sent := (getSock st p.client_socket).sent
            ++ [pyEncode (p.numbering ++ " " ++ toString p.pin_number ++ " " ++ cmd)] } := by
  unfold RemotePin.sendCommand sendallRef Socket.sendall at h
  by_cases hc : (getSock st p.client_socket).closed
  · simp [hc] at h
  · simp [hc] at h
    exact ⟨by simpa using hc, h.symm⟩

theorem wire_on_eq (nb : String) (pn t : Int) :
    nb ++ " " ++ toString pn ++ " " ++ ("on" ++ " " ++ toString t)
      = nb ++ " " ++ toString pn ++ " on " ++ toString t := by
  apply String.ext
  simp [String.data_append]

theorem wire_blink_eq (nb : String) (pn : Int) :
    nb ++ " " ++ toString pn ++ " " ++ ("blink" ++ " " ++ toString (0 : Int))
      = nb ++ " " ++ toString pn ++ " blink 0" := by
  apply String.ext
  simp [String.data_append]
  rfl

theorem wire_pulse_eq (nb : String) (pn : Int) :
    nb ++ " " ++ toString pn ++ " " ++ ("pulse" ++ " " ++ toString (0 : Int))
      = nb ++ " " ++ toString pn ++ " pulse 0" := by
  apply String.ext
  simp [String.data_append]
  rfl

theorem wire_off_eq (nb : String) (pn : Int) :
    nb ++ " " ++ toString pn ++ " " ++ ("off" ++ " " ++ toString (0 : Int))
      = nb ++ " " ++ toString pn ++ " off 0" := by
  apply String.ext
  simp [String.data_append]
  rfl

theorem on_ok (p : RemotePin) (st : Store) (t : Int)
    (h : (getSock st p.client_socket).closed = false) :
    p.on st t = .ok (p, st.set p.client_socket
      { closed := false,
        sent := (getSock st p.client_socket).sent
          ++ [pyEncode (p.numbering ++ " " ++ toString p.pin_number
                ++ " on " ++ toString t)] }) := by
  have hs := sendCommand_ok p st ("on" ++ " " ++ toString t) h
  rw [wire_on_eq] at hs
  unfold RemotePin.on RemotePin.createCommand
  simp only [hs]

theorem blink_ok (p : RemotePin) (st : Store)
    (h : (getSock st p.client_socket).closed = false) :
    p.blink st = .ok (p, st.set p.client_socket
      { closed := false,
        sent := (getSock st p.client_socket).sent
          ++ [pyEncode (p.numbering ++ " " ++ toString p.pin_number ++ " blink 0")] }) := by
  have hs := sendCommand_ok p st ("blink" ++ " " ++ toString (0 : Int)) h
  rw [wire_blink_eq] at hs
  unfold RemotePin.blink RemotePin.createCommand
  simp only [hs]

theorem pulse_ok (p : RemotePin) (st : Store)
    (h : (getSock st p.client_socket).closed = false) :
    p.pulse st = .ok (p, st.set p.client_socket
      { closed := false,
        sent := (getSock st p.client_socket).sent
          ++ [pyEncode (p.numbering ++ " " ++ toString p.pin_number ++ " pulse 0")] }) := by
  have hs := sendCommand_ok p st ("pulse" ++ " " ++ toString (0 : Int)) h
  rw [wire_pulse_eq] at hs
  unfold RemotePin.pulse RemotePin.createCommand
  simp only [hs]

theorem off_ok (p : RemotePin) (st : Store)
    (h : (getSock st p.client_socket).closed = false) :
    p.off st = .ok (p, st.set p.client_socket
      { closed := false,
        sent := (getSock st p.client_socket).sent
          ++ [pyEncode (p.numbering ++ " " ++ toString p.pin_number ++ " off 0")] }) := by
  have hs := sendCommand_ok p st ("off" ++ " " ++ toString (0 : Int)) h
  rw [wire_off_eq] at hs
  unfold RemotePin.off RemotePin.createCommand
  simp only [hs]

theorem on_closed (p : RemotePin) (st : Store) (t : Int)
    (h : (getSock st p.client_socket).closed = true) :
    p.on st t = .error .badFileDescriptor := by
  have hs := sendCommand_closed p st ("on" ++ " " ++ toString t) h
  unfold RemotePin.on RemotePin.createCommand
  simp only [hs]

theorem blink_closed (p : RemotePin) (st : Store)
    (h : (getSock st p.client_socket).closed = true) :
    p.blink st = .error .badFileDescriptor := by
  have hs := sendCommand_closed p st ("blink" ++ " " ++ toString (0 : Int)) h
  unfold RemotePin.blink RemotePin.createCommand
  simp only [hs]

theorem pulse_closed (p : RemotePin) (st : Store)
    (h : (getSock st p.client_socket).closed = true) :
    p.pulse st = .error .badFileDescriptor := by
  have hs := sendCommand_closed p st ("pulse" ++ " " ++ toString (0 : Int)) h
  unfold RemotePin.pulse RemotePin.createCommand
  simp only [hs]

theorem off_closed (p : RemotePin) (st : Store)
    (h : (getSock st p.client_socket).closed = true) :
    p.off st = .error .badFileDescriptor := by
  have hs := sendCommand_closed p st ("off" ++ " " ++ toString (0 : Int)) h
  unfold RemotePin.off RemotePin.createCommand
  simp only [hs]

theorem close_closed (srv : RemoteServer) (st : Store) :
    (getSock (srv.close st) srv.client_socket).closed = true := by
  rcases lt_or_ge srv.client_socket st.length with h | h
  · unfold RemoteServer.close
    rw [getSock_set_self _ _ _ h]
  · unfold RemoteServer.close
    rw [List.set_eq_of_length_le h]
    simp [getSock, List.getD, List.getElem?_eq_none h]

theorem wrap_ok_inv (p : RemotePin) (st : Store) (cmd : String)
    (p' : RemotePin) (st' : Store)
    (h : (match p.sendCommand st cmd with
          | Except.error e => Except.error e
          | Except.ok s => Except.ok (p, s)) = Except.ok (p', st')) :
    p' = p ∧ (getSock st p.client_socket).closed = false ∧
      ∀ r, (getSock st' r).closed = (getSock st r).closed := by
  cases hx : p.sendCommand st cmd with
  | error e => rw [hx] at h; simp at h
  | ok s =>
    rw [hx] at h
    simp at h
    obtain ⟨hp, hs2⟩ := h
    obtain ⟨hc, hset⟩ := sendCommand_ok_inv p st cmd s hx
    subst hs2
    refine ⟨hp.symm, hc, ?_⟩
    rw [hset]
    exact closed_pres_set st p.client_socket _ hc

theorem run_ok_inv (a : Action) (p : RemotePin) (st : Store)
    (p' : RemotePin) (st' : Store) (h : a.run p st = .ok (p', st')) :
    p' = p ∧ ∀ r, (getSock st' r).closed = (getSock st r).closed := by
  rcases a with t | _ | _ | _
  · have hw := wrap_ok_inv p st ("on" ++ " " ++ toString t) p' st' h
    exact ⟨hw.1, hw.2.2⟩
  · have hw := wrap_ok_inv p st ("blink" ++ " " ++ toString (0 : Int)) p' st' h
    exact ⟨hw.1, hw.2.2⟩
  · have hw := wrap_ok_inv p st ("pulse" ++ " " ++ toString (0 : Int)) p' st' h
    exact ⟨hw.1, hw.2.2⟩
  · have hw := wrap_ok_inv p st ("off" ++ " " ++ toString (0 : Int)) p' st' h
    exact ⟨hw.1, hw.2.2⟩

theorem runAll_ok_inv (acts : List Action) :
    ∀ (p : RemotePin) (st : Store) (p' : RemotePin) (st' : Store),
      runAll acts p st = .ok (p', st') →
      p' = p ∧ ∀ r, (getSock st' r).closed = (getSock st r).closed := by
  induction acts with
  | nil =>
    intro p st p' st' h
    simp [runAll] at h
    exact ⟨h.1.symm, by rw [h.2]; intro r; rfl⟩
  | cons a rest ih =>
    intro p st p' st' h
    simp only [runAll] at h
    cases hx : a.run p st with
    | error e => rw [hx] at h; simp at h
    | ok pr =>
      obtain ⟨p1, st1⟩ := pr
      rw [hx] at h
      simp at h
      obtain ⟨h1, h2⟩ := run_ok_inv a p st p1 st1 hx
      obtain ⟨h3, h4⟩ := ih p1 st1 p' st' h
      exact ⟨h3.trans h1, fun r => (h4 r).trans (h2 r)⟩

/-! Concrete values used by the witnesses. -/

deriving instance DecidableEq for Except

/-- Pin handle for pin 8 with board numbering, as in the example script. -/
def p0 : RemotePin :=
  { client_socket := 0, pin_number := 8, numbering := "b", time_ms := 0 }

/-- Pin handle agreeing with `p0` except for the dead `time_ms` field. -/
def p0t : RemotePin :=
  { client_socket := 0, pin_number := 8, numbering := "b", time_ms := 999 }

/-- Server owning socket `0`. -/
def srv0 : RemoteServer :=
  { server_ip := "192.168.0.90", server_port := 8509, client_socket := 0 }

/-- A store with one open socket that has not transmitted anything yet. -/
def st0 : Store := [{ closed := false, sent := [] }]

/-- The chained calls of the example script: `on(2000)`, `blink()`, `off()`. -/
def acts0 : List Action := [Action.on 2000, Action.blink, Action.off]

/-- The store after running `acts0` on `p0` from `st0`. -/
def st1 : Store :=
  [{ closed := false,
     sent := [pyEncode "b 8 on 2000", pyEncode "b 8 blink 0", pyEncode "b 8 off 0"] }]

/-! The claims. -/

/-- C1: for every numbering string, pin number and integer `time_ms`, a
successful `on(time_ms)` call sends exactly the byte encoding of the
string `"<numbering> <pin_number> on <time_ms>"` (tokens space-separated,
`pin_number` and `time_ms` in decimal) as one payload, and an unspecified
`time_ms` defaults to `0`. -/
theorem on_sends_encoded_on_command :
    ∀ (p : RemotePin) (st : Store) (t : Int),
      (getSock st p.client_socket).closed = false →
      p.on st t = .ok (p, st.set p.client_socket
        { closed := false,
          sent := (getSock st p.client_socket).sent
            ++ [pyEncode (p.numbering ++ " " ++ toString p.pin_number
                  ++ " on " ++ toString t)] })
      ∧ p.on st = p.on st 0 :=
  fun p st t h => ⟨on_ok p st t h, rfl⟩

/-- Witness for C1 at pin 8, numbering `"b"`, `time_ms = 2000`. -/
theorem on_sends_encoded_on_command_witness :
    (getSock st0 p0.client_socket).closed = false ∧
    (p0.on st0 2000 = .ok (p0, st0.set p0.client_socket
        { closed := false,
          sent := (getSock st0 p0.client_socket).sent
            ++ [pyEncode (p0.numbering ++ " " ++ toString p0.pin_number
                  ++ " on " ++ toString (2000 : Int))] })
      ∧ p0.on st0 = p0.on st0 0) :=
  ⟨by decide, on_sends_encoded_on_command p0 st0 2000 (by decide)⟩

/-- C2: for every numbering string and pin number, successful `blink()`,
`pulse()` and `off()` calls each send exactly the byte encoding of
`"<numbering> <pin_number> <action> 0"`, the time component hardcoded to
`0`; the three methods take no caller-supplied time value (their
signatures have no time parameter). -/
theorem fixed_actions_send_time_zero :
    ∀ (p : RemotePin) (st : Store),
      (getSock st p.client_socket).closed = false →
      p.blink st = .ok (p, st.set p.client_socket
        { closed := false,
          sent := (getSock st p.client_socket).sent
            ++ [pyEncode (p.numbering ++ " " ++ toString p.pin_number ++ " blink 0")] })
      ∧ p.pulse st = .ok (p, st.set p.client_socket
        { closed := false,
          sent := (getSock st p.client_socket).sent
            ++ [pyEncode (p.numbering ++ " " ++ toString p.pin_number ++ " pulse 0")] })
      ∧ p.off st = .ok (p, st.set p.client_socket
        { closed := false,
          sent := (getSock st p.client_socket).sent
            ++ [pyEncode (p.numbering ++ " " ++ toString p.pin_number ++ " off 0")] }) :=
  fun p st h => ⟨blink_ok p st h, pulse_ok p st h, off_ok p st h⟩

/-- Witness for C2 at pin 8, numbering `"b"`. -/
theorem fixed_actions_send_time_zero_witness :
    (getSock st0 p0.client_socket).closed = false ∧
    (p0.blink st0 = .ok (p0, st0.set p0.client_socket
        { closed := false,
          sent := (getSock st0 p0.client_socket).sent
            ++ [pyEncode (p0.numbering ++ " " ++ toString p0.pin_number ++ " blink 0")] })
      ∧ p0.pulse st0 = .ok (p0, st0.set p0.client_socket
        { closed := false,
          sent := (getSock st0 p0.client_socket).sent
            ++ [pyEncode (p0.numbering ++ " " ++ toString p0.pin_number ++ " pulse 0")] })
      ∧ p0.off st0 = .ok (p0, st0.set p0.client_socket
        { closed := false,
          sent := (getSock st0 p0.client_socket).sent
            ++ [pyEncode (p0.numbering ++ " " ++ toString p0.pin_number ++ " off 0")] })) :=
  ⟨by decide, fixed_actions_send_time_zero p0 st0 (by decide)⟩

/-- C3: for every action from an ASCII numbering string, the transmitted
payload is the exact ASCII encoding of the wire string: one byte (the
character's code) per character, ending immediately after the last token,
with no trailing newline, delimiter or terminator byte appended. -/
theorem sent_bytes_exact_ascii_no_terminator :
    ∀ (p : RemotePin) (st : Store) (t : Int),
      isAscii p.numbering →
      (getSock st p.client_socket).closed = false →
      p.on st t = .ok (p, st.set p.client_socket
        { closed := false,
          sent := (getSock st p.client_socket).sent
            ++ [(p.numbering ++ " " ++ toString p.pin_number
                  ++ " on " ++ toString t).data.map (fun c => UInt8.ofNat c.toNat)] })
      ∧ p.blink st = .ok (p, st.set p.client_socket
        { closed := false,
          sent := (getSock st p.client_socket).sent
            ++ [(p.numbering ++ " " ++ toString p.pin_number
                  ++ " blink 0").data.map (fun c => UInt8.ofNat c.toNat)] })
      ∧ p.pulse st = .ok (p, st.set p.client_socket
        { closed := false,
          sent := (getSock st p.client_socket).sent
            ++ [(p.numbering ++ " " ++ toString p.pin_number
                  ++ " pulse 0").data.map (fun c => UInt8.ofNat c.toNat)] })
      ∧ p.off st = .ok (p, st.set p.client_socket
        { closed := false,
          sent := (getSock st p.client_socket).sent
            ++ [(p.numbering ++ " " ++ toString p.pin_number
                  ++ " off 0").data.map (fun c => UInt8.ofNat c.toNat)] })
      ∧ (∀ s : String, (s.data.map (fun c => UInt8.ofNat c.toNat)).length = s.length) := by
  intro p st t hA h
  have h1 : isAscii (p.numbering ++ " ") := append_ascii _ _ hA (by decide)
  have h2 : isAscii (p.numbering ++ " " ++ toString p.pin_number) :=
    append_ascii _ _ h1 (intToString_ascii p.pin_number)
  have hOn : isAscii (p.numbering ++ " " ++ toString p.pin_number
      ++ " on " ++ toString t) :=
    append_ascii _ _ (append_ascii _ _ h2 (by decide)) (intToString_ascii t)
  have hBlink : isAscii (p.numbering ++ " " ++ toString p.pin_number ++ " blink 0") :=
    append_ascii _ _ h2 (by decide)
  have hPulse : isAscii (p.numbering ++ " " ++ toString p.pin_number ++ " pulse 0") :=
    append_ascii _ _ h2 (by decide)
  have hOff : isAscii (p.numbering ++ " " ++ toString p.pin_number ++ " off 0") :=
    append_ascii _ _ h2 (by decide)
  refine ⟨?_, ?_, ?_, ?_, fun s => List.length_map s.data _⟩
  · have e := on_ok p st t h
    rw [pyEncode_of_ascii _ hOn] at e
    exact e
  · have e := blink_ok p st h
    rw [pyEncode_of_ascii _ hBlink] at e
    exact e
  · have e := pulse_ok p st h
    rw [pyEncode_of_ascii _ hPulse] at e
    exact e
  · have e := off_ok p st h
    rw [pyEncode_of_ascii _ hOff] at e
    exact e

/-- Witness for C3 at pin 8, numbering `"b"`, `time_ms = 2000`. -/
theorem sent_bytes_exact_ascii_no_terminator_witness :
    isAscii p0.numbering ∧
    (getSock st0 p0.client_socket).closed = false ∧
    (p0.on st0 2000 = .ok (p0, st0.set p0.client_socket
        { closed := false,
          sent := (getSock st0 p0.client_socket).sent
            ++ [(p0.numbering ++ " " ++ toString p0.pin_number
                  ++ " on " ++ toString (2000 : Int)).data.map (fun c => UInt8.ofNat c.toNat)] })
      ∧ p0.blink st0 = .ok (p0, st0.set p0.client_socket
        { closed := false,
          sent := (getSock st0 p0.client_socket).sent
            ++ [(p0.numbering ++ " " ++ toString p0.pin_number
                  ++ " blink 0").data.map (fun c => UInt8.ofNat c.toNat)] })
      ∧ p0.pulse st0 = .ok (p0, st0.set p0.client_socket
        { closed := false,
          sent := (getSock st0 p0.client_socket).sent
            ++ [(p0.numbering ++ " " ++ toString p0.pin_number
                  ++ " pulse 0").data.map (fun c => UInt8.ofNat c.toNat)] })
      ∧ p0.off st0 = .ok (p0, st0.set p0.client_socket
        { closed := false,
          sent := (getSock st0 p0.client_socket).sent
            ++ [(p0.numbering ++ " " ++ toString p0.pin_number
                  ++ " off 0").data.map (fun c => UInt8.ofNat c.toNat)] })
      ∧ (∀ s : String, (s.data.map (fun c => UInt8.ofNat c.toNat)).length = s.length)) :=
  ⟨by decide, by decide,
   sent_bytes_exact_ascii_no_terminator p0 st0 2000 (by decide) (by decide)⟩

/-- C4: `pin(pin_number, numbering)` is pure construction: it touches no
socket state (its type involves no `Store`), accepts and stores any
`pin_number` and `numbering` verbatim on the returned handle, and
`numbering` defaults to `"b"` when unspecified. -/
theorem pin_pure_construction :
    ∀ (srv : RemoteServer) (n : Int) (nb : String),
      (srv.pin n nb).pin_number = n ∧
      (srv.pin n nb).numbering = nb ∧
      (srv.pin n nb).client_socket = srv.client_socket ∧
      (srv.pin n nb).time_ms = 0 ∧
      srv.pin n = srv.pin n "b" :=
  fun _ _ _ => ⟨rfl, rfl, rfl, rfl, rfl⟩

/-- C5: every action method returns the very handle it was called on, so
any chained sequence of successful action calls ends on a handle with the
same `numbering` and `pin_number` as the original one. -/
theorem actions_return_same_handle :
    ∀ (p : RemotePin) (st : Store),
      (∀ (t : Int) (r : RemotePin × Store), p.on st t = .ok r → r.1 = p) ∧
      (∀ r, p.blink st = .ok r → r.1 = p) ∧
      (∀ r, p.pulse st = .ok r → r.1 = p) ∧
      (∀ r, p.off st = .ok r → r.1 = p) ∧
      (∀ (acts : List Action) (p' : RemotePin) (st' : Store),
        runAll acts p st = .ok (p', st') →
        p' = p ∧ p'.numbering = p.numbering ∧ p'.pin_number = p.pin_number) := by
  intro p st
  refine ⟨?_, ?_, ?_, ?_, ?_⟩
  · exact fun t r h => (run_ok_inv (Action.on t) p st r.1 r.2 h).1
  · exact fun r h => (run_ok_inv Action.blink p st r.1 r.2 h).1
  · exact fun r h => (run_ok_inv Action.pulse p st r.1 r.2 h).1
  · exact fun r h => (run_ok_inv Action.off p st r.1 r.2 h).1
  · intro acts p' st' h
    obtain ⟨h1, _⟩ := runAll_ok_inv acts p st p' st' h
    exact ⟨h1, by rw [h1], by rw [h1]⟩

/-- Witness for C5: the example script's chain `on(2000)`, `blink()`,
`off()` returns the original handle. -/
theorem actions_return_same_handle_witness :
    runAll acts0 p0 st0 = .ok (p0, st1) ∧
    (p0 = p0 ∧ p0.numbering = p0.numbering ∧ p0.pin_number = p0.pin_number) :=
  ⟨by decide,
   (actions_return_same_handle p0 st0).2.2.2.2 acts0 p0 st1 (by decide)⟩

/-- C6: when the TCP handshake raises a transport error `e`, construction
of a `RemoteServer` fails with exactly that error, so no connection value
is ever produced from a failed handshake. -/
theorem connect_failure_fails_construction :
    ∀ (st : Store) (ip : String) (port : Int) (e : OSErr),
      RemoteServer.init st ip port (some e) = .error e :=
  fun _ _ _ _ => rfl

/-- C7: every action on a pin handle whose server connection has been
closed fails with the transport error `EBADF` (bad file descriptor),
synchronously returned to the caller. -/
theorem actions_fail_after_close :
    ∀ (srv : RemoteServer) (st : Store) (n : Int) (nb : String) (t : Int),
      (srv.pin n nb).on (srv.close st) t = .error .badFileDescriptor ∧
      (srv.pin n nb).blink (srv.close st) = .error .badFileDescriptor ∧
      (srv.pin n nb).pulse (srv.close st) = .error .badFileDescriptor ∧
      (srv.pin n nb).off (srv.close st) = .error .badFileDescriptor := by
  intro srv st n nb t
  have hc : (getSock (srv.close st) (srv.pin n nb).client_socket).closed = true :=
    close_closed srv st
  exact ⟨on_closed _ _ _ hc, blink_closed _ _ hc, pulse_closed _ _ hc, off_closed _ _ hc⟩

/-- Both `__send_command` calls agree on two handles that share their
socket reference, pin number and numbering: the stored `time_ms` field is
not among the inputs of the encoding. -/
theorem sendCommand_congr (p1 p2 : RemotePin) (st : Store) (cmd : String)
    (h1 : p1.client_socket = p2.client_socket)
    (h2 : p1.pin_number = p2.pin_number)
    (h3 : p1.numbering = p2.numbering) :
    p1.sendCommand st cmd = p2.sendCommand st cmd := by
  unfold RemotePin.sendCommand
  rw [h1, h2, h3]

/-- C8: the `time_ms` field stored on a handle at construction is never
read by any action: two handles agreeing on socket, numbering and pin
number but with arbitrary (in particular different) stored `time_ms`
produce identical transmission results for `on` (any argument), `blink`,
`pulse` and `off`. -/
theorem stored_time_ms_never_read :
    ∀ (p1 p2 : RemotePin) (st : Store) (t : Int),
      p1.client_socket = p2.client_socket →
      p1.pin_number = p2.pin_number →
      p1.numbering = p2.numbering →
      (p1.on st t).map Prod.snd = (p2.on st t).map Prod.snd ∧
      (p1.blink st).map Prod.snd = (p2.blink st).map Prod.snd ∧
      (p1.pulse st).map Prod.snd = (p2.pulse st).map Prod.snd ∧
      (p1.off st).map Prod.snd = (p2.off st).map Prod.snd := by
  intro p1 p2 st t h1 h2 h3
  refine ⟨?_, ?_, ?_, ?_⟩
  · have hs := sendCommand_congr p1 p2 st ("on" ++ " " ++ toString t) h1 h2 h3
    unfold RemotePin.on RemotePin.createCommand
    simp only [hs]
    cases hx : p2.sendCommand st ("on" ++ " " ++ toString t) <;> simp [Except.map]
  · have hs := sendCommand_congr p1 p2 st ("blink" ++ " " ++ toString (0 : Int)) h1 h2 h3
    unfold RemotePin.blink RemotePin.createCommand
    simp only [hs]
    cases hx : p2.sendCommand st ("blink" ++ " " ++ toString (0 : Int)) <;> simp [Except.map]
  · have hs := sendCommand_congr p1 p2 st ("pulse" ++ " " ++ toString (0 : Int)) h1 h2 h3
    unfold RemotePin.pulse RemotePin.createCommand
    simp only [hs]
    cases hx : p2.sendCommand st ("pulse" ++ " " ++ toString (0 : Int)) <;> simp [Except.map]
  · have hs := sendCommand_congr p1 p2 st ("off" ++ " " ++ toString (0 : Int)) h1 h2 h3
    unfold RemotePin.off RemotePin.createCommand
    simp only [hs]
    cases hx : p2.sendCommand st ("off" ++ " " ++ toString (0 : Int)) <;> simp [Except.map]

/-- Witness for C8: `p0` and `p0t` differ only in the stored `time_ms`
(`0` versus `999`) and transmit the same bytes. -/
theorem stored_time_ms_never_read_witness :
    p0.client_socket = p0t.client_socket ∧
    p0.pin_number = p0t.pin_number ∧
    p0.numbering = p0t.numbering ∧
    ((p0.on st0 2000).map Prod.snd = (p0t.on st0 2000).map Prod.snd ∧
     (p0.blink st0).map Prod.snd = (p0t.blink st0).map Prod.snd ∧
     (p0.pulse st0).map Prod.snd = (p0t.pulse st0).map Prod.snd ∧
     (p0.off st0).map Prod.snd = (p0t.off st0).map Prod.snd) :=
  ⟨rfl, rfl, rfl,
   stored_time_ms_never_read p0 p0t st0 2000 rfl rfl rfl⟩

/-- C9: a pin handle never closes the shared stream: every handle produced
by `pin()` holds the server's own socket reference, and no successful
sequence of action calls changes that reference or the closed-flag of any
socket in the store. -/
theorem pins_share_socket_never_close :
    ∀ (srv : RemoteServer) (n : Int) (nb : String) (acts : List Action)
      (p : RemotePin) (st : Store) (p' : RemotePin) (st' : Store),
      (srv.pin n nb).client_socket = srv.client_socket ∧
      (runAll acts p st = .ok (p', st') →
        p'.client_socket = p.client_socket ∧
        ∀ r, (getSock st' r).closed = (getSock st r).closed) := by
  intro srv n nb acts p st p' st'
  refine ⟨rfl, fun h => ?_⟩
  obtain ⟨h1, h2⟩ := runAll_ok_inv acts p st p' st' h
  exact ⟨by rw [h1], h2⟩

/-- Witness for C9: the example chain leaves socket `0` open and the
handle still references it. -/
theorem pins_share_socket_never_close_witness :
    (srv0.pin 8 "b").client_socket = srv0.client_socket ∧
    runAll acts0 p0 st0 = .ok (p0, st1) ∧
    (p0.client_socket = p0.client_socket ∧
      ∀ r, (getSock st1 r).closed = (getSock st0 r).closed) :=
  ⟨(pins_share_socket_never_close srv0 8 "b" acts0 p0 st0 p0 st1).1,
   by decide,
   (pins_share_socket_never_close srv0 8 "b" acts0 p0 st0 p0 st1).2 (by decide)⟩

/-- C10: `on(time_ms)` applies no validation or clamping: for every
integer, including negative values, the decimal representation of the
argument is interpolated verbatim into the wire command; in particular
`on(-5)` on a handle with numbering `"b"` and pin `8` sends the bytes of
`"b 8 on -5"`. -/
theorem on_interpolates_time_verbatim :
    (∀ (p : RemotePin) (st : Store) (t : Int),
      (getSock st p.client_socket).closed = false →
      p.on st t = .ok (p, st.set p.client_socket
        { closed := false,
          sent := (getSock st p.client_socket).sent
            ++ [pyEncode (p.numbering ++ " " ++ toString p.pin_number
                  ++ " on " ++ toString t)] }))
    ∧ p0.on st0 (-5)
        = .ok (p0, [{ closed := false, sent := [pyEncode "b 8 on -5"] }]) :=
  ⟨on_ok, by decide⟩

/-- Witness for C10 at `time_ms = -7`. -/
theorem on_interpolates_time_verbatim_witness :
    (getSock st0 p0.client_socket).closed = false ∧
    p0.on st0 (-7) = .ok (p0, st0.set p0.client_socket
      { closed := false,
        sent := (getSock st0 p0.client_socket).sent
          ++ [pyEncode (p0.numbering ++ " " ++ toString p0.pin_number
                ++ " on " ++ toString (-7 : Int))] }) :=
  ⟨by decide, on_interpolates_time_verbatim.1 p0 st0 (-7) (by decide)⟩

end RemoteIO